import Mathlib

/-!
Shallow embedding of the scoring / tier-probability / battle-judge logic of
the AI_xandria repository, together with theorems settling the spec claims.

JavaScript numbers are modelled as rationals (`ℚ`): every numeric value and
comparison appearing in the embedded functions is exact integer/decimal
arithmetic, where `ℚ` and IEEE doubles agree.  The `typeof x !== 'number'`
guards of the source are vacuous in the embedding because record fields are
`ℚ` by construction; the claims under study all quantify over numeric scores.
-/

/-- Reward tiers, in the iteration (insertion) order of the source's
`TierProbability` object literals: common, rare, epic, legendary. -/
inductive Tier where
  | common
  | rare
  | epic
  | legendary
deriving DecidableEq, Repr

/-- Quality bands returned by `getQualityLevel`. -/
inductive QualityLevel where
  | low
  | medium
  | high
  | exceptional
deriving DecidableEq, Repr

/-- `TierProbability` from `types.ts`: one weight per reward tier. -/
structure TierProbability where
  common : ℚ
  rare : ℚ
  epic : ℚ
  legendary : ℚ
deriving DecidableEq, Repr

/-- `PromptScore` from `types.ts`: four sub-scores (each 0-25 by contract),
a declared total (0-100), and free-text reasoning. -/
structure PromptScore where
  specificity : ℚ
  creativity : ℚ
  coherence : ℚ
  complexity : ℚ
  total : ℚ
  reasoning : String
deriving DecidableEq, Repr

/-- `PersonaScore` from `types.ts`: heterogeneous sub-score ranges
(logical_coherence 0-30, creativity 0-25, persuasiveness 0-25,
topic_relevance 0-20) and a declared total (0-100). -/
structure PersonaScore where
  logical_coherence : ℚ
  creativity : ℚ
  persuasiveness : ℚ
  topic_relevance : ℚ
  total : ℚ
deriving DecidableEq, Repr

/-- The static `TIER_PROBABILITIES` table of
`prompt-evaluation.service.ts` (lines 14-39), one row per quality band. -/
def TIER_PROBABILITIES : QualityLevel → TierProbability
  | QualityLevel.exceptional => { common := 5, rare := 30, epic := 45, legendary := 20 }
  | QualityLevel.high => { common := 25, rare := 40, epic := 28, legendary := 7 }
  | QualityLevel.medium => { common := 50, rare := 35, epic := 12, legendary := 3 }
  | QualityLevel.low => { common := 80, rare := 15, epic := 4, legendary := 1 }

/-- Sum of the four weights of a tier-probability row. -/
def TierProbability.rowSum (p : TierProbability) : ℚ :=
  p.common + p.rare + p.epic + p.legendary

/-- Errors thrown by `PromptEvaluationService.validateScore`, one constructor
per `throw new Error(...)` site. -/
inductive EvalError where
  | invalidFormat
  | subscoreOutOfRange
  | totalOutOfRange
deriving DecidableEq, Repr

/-- Sum of the four sub-scores of a `PromptScore` (the `calculatedTotal` of
`validateScore`). -/
def PromptScore.subSum (s : PromptScore) : ℚ :=
  s.specificity + s.creativity + s.coherence + s.complexity

/-- `PromptEvaluationService.validateScore` (lenient validation,
`prompt-evaluation.service.ts` lines 126-157): range-check the four
sub-scores, range-check the declared total, then silently overwrite the
total with the recomputed sum when it deviates by more than 1.  The
in-place mutation `score.total = calculatedTotal` is modelled by returning
the updated record. -/
def validateScore (score : PromptScore) : Except EvalError PromptScore :=
  if score.specificity < 0 ∨ score.specificity > 25 ∨
      score.creativity < 0 ∨ score.creativity > 25 ∨
      score.coherence < 0 ∨ score.coherence > 25 ∨
      score.complexity < 0 ∨ score.complexity > 25 then
    Except.error EvalError.subscoreOutOfRange
  else if score.total < 0 ∨ score.total > 100 then
    Except.error EvalError.totalOutOfRange
  else
    if |score.subSum - score.total| > 1 then
      Except.ok { score with total := score.subSum }
    else
      Except.ok score

/-- `PromptEvaluationService.getQualityLevel`
(`prompt-evaluation.service.ts` lines 162-169). -/
def getQualityLevel (total : ℚ) : QualityLevel :=
  if total ≥ 86 then QualityLevel.exceptional
  else if total ≥ 71 then QualityLevel.high
  else if total ≥ 41 then QualityLevel.medium
  else QualityLevel.low

/-- `Object.entries(probabilities)` for a `TierProbability` literal: the
fields in insertion order. -/
def tierEntries (p : TierProbability) : List (Tier × ℚ) :=
  [(Tier.common, p.common), (Tier.rare, p.rare), (Tier.epic, p.epic),
   (Tier.legendary, p.legendary)]

/-- The loop of `PromptEvaluationService.rollTier`: walk the entries
accumulating weight; return the first tier whose cumulative weight the
draw `r` falls strictly below. -/
def rollTierAux (r : ℚ) : List (Tier × ℚ) → ℚ → Option Tier
  | [], _ => none
  | (t, prob) :: rest, cumulative =>
    if r < cumulative + prob then some t
    else rollTierAux r rest (cumulative + prob)

/-- `PromptEvaluationService.rollTier`
(`prompt-evaluation.service.ts` lines 174-186), with the uniform draw
`Math.random() * 100` made an explicit argument `r`; falls back to
`common` when no cumulative weight exceeds the draw. -/
def rollTier (p : TierProbability) (r : ℚ) : Tier :=
  (rollTierAux r (tierEntries p) 0).getD Tier.common

/-- The four sub-scores of a `PromptScore` each lie in their declared
closed interval [0,25]. -/
def PromptScore.subScoresInRange (s : PromptScore) : Prop :=
  0 ≤ s.specificity ∧ s.specificity ≤ 25 ∧
  0 ≤ s.creativity ∧ s.creativity ≤ 25 ∧
  0 ≤ s.coherence ∧ s.coherence ≤ 25 ∧
  0 ≤ s.complexity ∧ s.complexity ≤ 25

instance (s : PromptScore) : Decidable s.subScoresInRange := by
  unfold PromptScore.subScoresInRange
  infer_instance

/-- Sum of the four sub-scores of a `PersonaScore` (the `calculatedTotal`
of `validatePersonaScore`). -/
def PersonaScore.subSum (s : PersonaScore) : ℚ :=
  s.logical_coherence + s.creativity + s.persuasiveness + s.topic_relevance

/-- The four sub-scores of a `PersonaScore` each lie in their declared
heterogeneous closed intervals. -/
def PersonaScore.subScoresInRange (s : PersonaScore) : Prop :=
  0 ≤ s.logical_coherence ∧ s.logical_coherence ≤ 30 ∧
  0 ≤ s.creativity ∧ s.creativity ≤ 25 ∧
  0 ≤ s.persuasiveness ∧ s.persuasiveness ≤ 25 ∧
  0 ≤ s.topic_relevance ∧ s.topic_relevance ≤ 20

instance (s : PersonaScore) : Decidable s.subScoresInRange := by
  unfold PersonaScore.subScoresInRange
  infer_instance

/-- Errors thrown by `BattleJudgeService.validateJudgeResult` and
`validatePersonaScore` (part_002 lines 425-497), one constructor per
`throw new Error(...)` site. -/
inductive JudgeError where
  | invalidWinner
  | logicalCoherenceOutOfRange
  | creativityOutOfRange
  | persuasivenessOutOfRange
  | topicRelevanceOutOfRange
  | totalOutOfRange
  | totalMismatch
  | winnerMismatch
  | reasoningTooShort
  | missingHighlights
  | missingImprovementSuggestions
deriving DecidableEq, Repr

/-- `BattleJudgeService.validatePersonaScore` (strict validation,
part_002 lines 461-497): range-check each sub-score and the declared
total, then fail with a total mismatch when the declared total deviates
from the recomputed sum by more than 1. -/
def validatePersonaScore (score : PersonaScore) : Except JudgeError Unit :=
  if score.logical_coherence < 0 ∨ score.logical_coherence > 30 then
    Except.error JudgeError.logicalCoherenceOutOfRange
  else if score.creativity < 0 ∨ score.creativity > 25 then
    Except.error JudgeError.creativityOutOfRange
  else if score.persuasiveness < 0 ∨ score.persuasiveness > 25 then
    Except.error JudgeError.persuasivenessOutOfRange
  else if score.topic_relevance < 0 ∨ score.topic_relevance > 20 then
    Except.error JudgeError.topicRelevanceOutOfRange
  else if score.total < 0 ∨ score.total > 100 then
    Except.error JudgeError.totalOutOfRange
  else if |score.subSum - score.total| > 1 then
    Except.error JudgeError.totalMismatch
  else
    Except.ok ()

/-- Concrete prompt score with sub-scores (20, 18, 22, 15), whose sum is
75, and declared total 74 (deviation 1, within tolerance). -/
def offByOneScore : PromptScore :=
  { specificity := 20, creativity := 18, coherence := 22, complexity := 15,
    total := 74, reasoning := "ok" }

/-- Concrete prompt score with sub-scores (20, 18, 22, 15) and declared
total 90 (deviation 15, beyond tolerance). -/
def farOffScore : PromptScore :=
  { specificity := 20, creativity := 18, coherence := 22, complexity := 15,
    total := 90, reasoning := "w" }

/-- Concrete prompt score with sub-scores (10, 10, 10, 10) and matching
declared total 40. -/
def consistentScore : PromptScore :=
  { specificity := 10, creativity := 10, coherence := 10, complexity := 10,
    total := 40, reasoning := "kept" }

/-- Concrete persona score with sub-scores (30, 25, 25, 20), whose sum is
100, and declared total 50 (deviation 50). -/
def mismatchedPersonaScore : PersonaScore :=
  { logical_coherence := 30, creativity := 25, persuasiveness := 25,
    topic_relevance := 20, total := 50 }

/-- Concrete prompt score with sub-scores (20, 20, 20, 20), whose sum is
80, and declared total 10 (deviation 70). -/
def mismatchedPromptScore : PromptScore :=
  { specificity := 20, creativity := 20, coherence := 20, complexity := 20,
    total := 10, reasoning := "far" }

/-- C1 counterexample: at sub-scores (20, 18, 22, 15) with declared total
74, lenient validation succeeds but keeps the declared total 74, which is
not the sum 75 of the sub-scores — refuting "the resulting score's total
equals exactly the sum of the four sub-scores, whatever total was
declared". -/
theorem validateScore_overwrites_always_counterexample :
    (validateScore offByOneScore).map PromptScore.total = Except.ok 74 ∧
    (74 : ℚ) ≠ 20 + 18 + 22 + 15 := by
  constructor
  · norm_num [validateScore, PromptScore.subSum, offByOneScore, Except.map]
  · norm_num

/-- C1 (amended): for every score whose four sub-scores lie in [0,25] and
whose declared total lies in [0,100], lenient validation succeeds; the
resulting total equals the sum of the sub-scores whenever the declared
total deviates from that sum by more than 1, and otherwise the declared
total (already within 1 of the sum) is kept unchanged. -/
theorem validateScore_lenient_spec (s : PromptScore)
    (hsub : s.subScoresInRange) (h0 : 0 ≤ s.total) (h100 : s.total ≤ 100) :
    ∃ ok : PromptScore, validateScore s = Except.ok ok ∧
      (1 < |s.subSum - s.total| → ok.total = s.subSum) ∧
      (|s.subSum - s.total| ≤ 1 → ok.total = s.total) := by
  obtain ⟨a1, a2, b1, b2, c1, c2, d1, d2⟩ := hsub
  unfold validateScore
  rw [if_neg (by push_neg; exact ⟨a1, a2, b1, b2, c1, c2, d1, d2⟩),
    if_neg (by push_neg; exact ⟨h0, h100⟩)]
  split_ifs with h
  · exact ⟨_, rfl, fun _ => rfl, fun hle => absurd h (not_lt.mpr hle)⟩
  · exact ⟨_, rfl, fun hgt => absurd hgt h, fun _ => rfl⟩

/-- C1 witness: the amended statement applied at sub-scores (20, 18, 22,
15) with declared total 90 (deviation 15 > 1). -/
theorem validateScore_lenient_spec_witness :
    ∃ ok : PromptScore, validateScore farOffScore = Except.ok ok ∧
      (1 < |farOffScore.subSum - farOffScore.total| →
        ok.total = farOffScore.subSum) ∧
      (|farOffScore.subSum - farOffScore.total| ≤ 1 →
        ok.total = farOffScore.total) :=
  validateScore_lenient_spec farOffScore
    (by norm_num [PromptScore.subScoresInRange, farOffScore])
    (by norm_num [farOffScore]) (by norm_num [farOffScore])

/-- C9: lenient validation modifies at most the `total` field: whenever it
succeeds, the four sub-scores and the reasoning text are unchanged; the
total is kept when the declared total is within 1 of the recomputed sum,
and is replaced by the recomputed sum when the deviation exceeds 1. -/
theorem validateScore_frame (s ok : PromptScore)
    (h : validateScore s = Except.ok ok) :
    ok.specificity = s.specificity ∧ ok.creativity = s.creativity ∧
    ok.coherence = s.coherence ∧ ok.complexity = s.complexity ∧
    ok.reasoning = s.reasoning ∧
    (|s.subSum - s.total| ≤ 1 → ok.total = s.total) ∧
    (1 < |s.subSum - s.total| → ok.total = s.subSum) := by
  unfold validateScore at h
  split_ifs at h with h1 h2 h3
  · rw [Except.ok.injEq] at h
    subst h
    exact ⟨rfl, rfl, rfl, rfl, rfl,
      fun hle => absurd h3 (not_lt.mpr hle), fun _ => rfl⟩
  · rw [Except.ok.injEq] at h
    subst h
    exact ⟨rfl, rfl, rfl, rfl, rfl,
      fun _ => rfl, fun hgt => absurd hgt h3⟩

/-- C9 witness: the frame statement applied to the concrete score
(10, 10, 10, 10) with declared total 40 (deviation 0 ≤ 1): every field,
including the total, is unchanged. -/
theorem validateScore_frame_witness :
    (validateScore consistentScore).map PromptScore.total = Except.ok 40 := by
  have h : validateScore consistentScore = Except.ok consistentScore := by
    norm_num [validateScore, PromptScore.subSum, consistentScore]
  have htot := (validateScore_frame consistentScore consistentScore h).2.2.2.2.2.1
    (by norm_num [PromptScore.subSum, consistentScore])
  rw [h]
  simp [Except.map, htot, consistentScore]

/-- C4: for persona and prompt scores whose sub-scores are in their
declared ranges and whose declared totals are in [0,100] but deviate from
the recomputed sums by more than 1, strict validation fails with the
total-mismatch error while lenient validation succeeds with the total
replaced by the recomputed sum. -/
theorem strict_fails_lenient_corrects (p : PersonaScore) (s : PromptScore)
    (hp : p.subScoresInRange) (hp0 : 0 ≤ p.total) (hp100 : p.total ≤ 100)
    (hpd : 1 < |p.subSum - p.total|)
    (hs : s.subScoresInRange) (hs0 : 0 ≤ s.total) (hs100 : s.total ≤ 100)
    (hsd : 1 < |s.subSum - s.total|) :
    validatePersonaScore p = Except.error JudgeError.totalMismatch ∧
    validateScore s = Except.ok { s with total := s.subSum } := by
  obtain ⟨pa1, pa2, pb1, pb2, pc1, pc2, pd1, pd2⟩ := hp
  obtain ⟨sa1, sa2, sb1, sb2, sc1, sc2, sd1, sd2⟩ := hs
  constructor
  · unfold validatePersonaScore
    rw [if_neg (by push_neg; exact ⟨pa1, pa2⟩),
      if_neg (by push_neg; exact ⟨pb1, pb2⟩),
      if_neg (by push_neg; exact ⟨pc1, pc2⟩),
      if_neg (by push_neg; exact ⟨pd1, pd2⟩),
      if_neg (by push_neg; exact ⟨hp0, hp100⟩),
      if_pos hpd]
  · unfold validateScore
    rw [if_neg (by push_neg; exact ⟨sa1, sa2, sb1, sb2, sc1, sc2, sd1, sd2⟩),
      if_neg (by push_neg; exact ⟨hs0, hs100⟩),
      if_pos hsd]

/-- C4 witness: strict validation rejects the persona score
(30, 25, 25, 20) with declared total 50 (sum 100, deviation 50), and
lenient validation corrects the prompt score (20, 20, 20, 20) with
declared total 10 (sum 80, deviation 70) to its recomputed sum. -/
theorem strict_fails_lenient_corrects_witness :
    validatePersonaScore mismatchedPersonaScore
      = Except.error JudgeError.totalMismatch ∧
    validateScore mismatchedPromptScore
      = Except.ok { mismatchedPromptScore with
          total := mismatchedPromptScore.subSum } :=
  strict_fails_lenient_corrects mismatchedPersonaScore mismatchedPromptScore
    (by norm_num [PersonaScore.subScoresInRange, mismatchedPersonaScore])
    (by norm_num [mismatchedPersonaScore])
    (by norm_num [mismatchedPersonaScore])
    (by norm_num [PersonaScore.subSum, mismatchedPersonaScore])
    (by norm_num [PromptScore.subScoresInRange, mismatchedPromptScore])
    (by norm_num [mismatchedPromptScore])
    (by norm_num [mismatchedPromptScore])
    (by norm_num [PromptScore.subSum, mismatchedPromptScore])

/-- C3: for every integer total in [0,100], `getQualityLevel` returns
exceptional iff total ≥ 86, high iff 71 ≤ total ≤ 85, medium iff
41 ≤ total ≤ 70, and low iff total ≤ 40; in particular it maps 100 and 86
to exceptional, 85 and 71 to high, 70 and 41 to medium, and 40 and 0 to
low.  It is a pure function, so determinism and absence of side effects
hold by construction. -/
theorem getQualityLevel_spec (n : ℤ) (h0 : 0 ≤ n) (h100 : n ≤ 100) :
    (getQualityLevel (n : ℚ) = QualityLevel.exceptional ↔ 86 ≤ n) ∧
    (getQualityLevel (n : ℚ) = QualityLevel.high ↔ 71 ≤ n ∧ n ≤ 85) ∧
    (getQualityLevel (n : ℚ) = QualityLevel.medium ↔ 41 ≤ n ∧ n ≤ 70) ∧
    (getQualityLevel (n : ℚ) = QualityLevel.low ↔ n ≤ 40) ∧
    getQualityLevel 100 = QualityLevel.exceptional ∧
    getQualityLevel 86 = QualityLevel.exceptional ∧
    getQualityLevel 85 = QualityLevel.high ∧
    getQualityLevel 71 = QualityLevel.high ∧
    getQualityLevel 70 = QualityLevel.medium ∧
    getQualityLevel 41 = QualityLevel.medium ∧
    getQualityLevel 40 = QualityLevel.low ∧
    getQualityLevel 0 = QualityLevel.low := by
  have h86 : ((n : ℚ) ≥ 86) ↔ 86 ≤ n := by
    constructor <;> intro h <;> exact_mod_cast h
  have h71 : ((n : ℚ) ≥ 71) ↔ 71 ≤ n := by
    constructor <;> intro h <;> exact_mod_cast h
  have h41 : ((n : ℚ) ≥ 41) ↔ 41 ≤ n := by
    constructor <;> intro h <;> exact_mod_cast h
  have key : getQualityLevel (n : ℚ) =
      if 86 ≤ n then QualityLevel.exceptional
      else if 71 ≤ n then QualityLevel.high
      else if 41 ≤ n then QualityLevel.medium
      else QualityLevel.low := by
    unfold getQualityLevel
    rw [if_congr h86 rfl (if_congr h71 rfl (if_congr h41 rfl rfl))]
  refine ⟨?_, ?_, ?_, ?_, by norm_num [getQualityLevel],
    by norm_num [getQualityLevel], by norm_num [getQualityLevel],
    by norm_num [getQualityLevel], by norm_num [getQualityLevel],
    by norm_num [getQualityLevel], by norm_num [getQualityLevel],
    by norm_num [getQualityLevel]⟩ <;>
    rw [key] <;> split_ifs with h1 h2 h3 <;> simp <;> omega

/-- C3 witness at total = 50. -/
theorem getQualityLevel_spec_witness :
    getQualityLevel ((50 : ℤ) : ℚ) = QualityLevel.medium :=
  ((getQualityLevel_spec 50 (by decide) (by decide)).2.2.1).mpr (by decide)

/-- C7: the tier-probability table is a closed total table over the four
quality bands, each band maps exactly to the documented row, and every
row's four weights sum to exactly 100. -/
theorem tier_table_spec :
    TIER_PROBABILITIES QualityLevel.exceptional =
      { common := 5, rare := 30, epic := 45, legendary := 20 } ∧
    TIER_PROBABILITIES QualityLevel.high =
      { common := 25, rare := 40, epic := 28, legendary := 7 } ∧
    TIER_PROBABILITIES QualityLevel.medium =
      { common := 50, rare := 35, epic := 12, legendary := 3 } ∧
    TIER_PROBABILITIES QualityLevel.low =
      { common := 80, rare := 15, epic := 4, legendary := 1 } ∧
    ∀ level : QualityLevel, (TIER_PROBABILITIES level).rowSum = 100 := by
  refine ⟨rfl, rfl, rfl, rfl, ?_⟩
  intro level
  cases level <;> norm_num [TIER_PROBABILITIES, TierProbability.rowSum]

/-- Concrete distribution whose weights sum to 40 only, used to exercise
the fallback branch of `rollTier`. -/
def lowMassRow : TierProbability :=
  { common := 10, rare := 10, epic := 10, legendary := 10 }

/-- C2: for every distribution and draw, `rollTier` returns the first tier
in iteration order (common, rare, epic, legendary) whose cumulative weight
strictly exceeds the draw; on every table row a draw of 0 returns common;
on the exceptional row (cumulative bands 5, 35, 80, 100) a draw of 99
returns legendary; and when no cumulative weight exceeds the draw it
deterministically falls back to common. -/
theorem rollTier_spec :
    (∀ (p : TierProbability) (r : ℚ),
      rollTier p r =
        if r < p.common then Tier.common
        else if r < p.common + p.rare then Tier.rare
        else if r < p.common + p.rare + p.epic then Tier.epic
        else if r < p.common + p.rare + p.epic + p.legendary then Tier.legendary
        else Tier.common) ∧
    (∀ level : QualityLevel,
      rollTier (TIER_PROBABILITIES level) 0 = Tier.common) ∧
    rollTier (TIER_PROBABILITIES QualityLevel.exceptional) 99 = Tier.legendary ∧
    (∀ (p : TierProbability) (r : ℚ),
      p.common ≤ r → p.common + p.rare ≤ r → p.common + p.rare + p.epic ≤ r →
      p.common + p.rare + p.epic + p.legendary ≤ r →
      rollTier p r = Tier.common) := by
  refine ⟨?_, ?_, ?_, ?_⟩
  · intro p r
    simp only [rollTier, tierEntries, rollTierAux, zero_add]
    split_ifs <;> rfl
  · intro level
    cases level <;>
      norm_num [rollTier, tierEntries, rollTierAux, TIER_PROBABILITIES]
  · norm_num [rollTier, tierEntries, rollTierAux, TIER_PROBABILITIES]
  · intro p r h1 h2 h3 h4
    simp only [rollTier, tierEntries, rollTierAux, zero_add]
    rw [if_neg (not_lt.mpr h1), if_neg (not_lt.mpr h2),
      if_neg (not_lt.mpr h3), if_neg (not_lt.mpr h4)]
    rfl

/-- C2 witness: the fallback clause applied to a row with total mass 40
and a draw of 50 (every cumulative weight ≤ 50), yielding common. -/
theorem rollTier_spec_witness : rollTier lowMassRow 50 = Tier.common :=
  rollTier_spec.2.2.2 lowMassRow 50 (by norm_num [lowMassRow])
    (by norm_num [lowMassRow]) (by norm_num [lowMassRow])
    (by norm_num [lowMassRow])

/-- `highlights` object of a `BattleJudgeResponse`.  Fields are `Option`
to model JSON keys that may be absent (`undefined`); the JS falsiness
check also treats the empty string as missing. -/
structure Highlights where
  persona1_best : Option String
  persona2_best : Option String
deriving DecidableEq, Repr

/-- `improvement_suggestions` object of a `BattleJudgeResponse`. -/
structure ImprovementSuggestions where
  persona1 : Option String
  persona2 : Option String
deriving DecidableEq, Repr

/-- `BattleJudgeResponse` from `types.ts` as it reaches
`validateJudgeResult` after `JSON.parse`: the winner is an arbitrary
string until validated, and the narrative fields may be absent. -/
structure BattleJudgeResponse where
  winner : String
  scores_persona1 : PersonaScore
  scores_persona2 : PersonaScore
  reasoning : Option String
  highlights : Option Highlights
  improvement_suggestions : Option ImprovementSuggestions
deriving DecidableEq, Repr

/-- JS falsiness of an optional string: absent (`undefined`) or empty. -/
def strFalsy : Option String → Bool
  | none => true
  | some s => s.isEmpty

/-- The check `!result.reasoning || result.reasoning.length < 20`
(an absent or empty reasoning string also has length < 20). -/
def reasoningBad : Option String → Bool
  | none => true
  | some s => s.length < 20

/-- The check `!result.highlights?.persona1_best ||
!result.highlights?.persona2_best` (optional chaining yields undefined
when `highlights` itself is absent). -/
def highlightsMissing : Option Highlights → Bool
  | none => true
  | some h => strFalsy h.persona1_best || strFalsy h.persona2_best

/-- The check `!result.improvement_suggestions?.persona1 ||
!result.improvement_suggestions?.persona2`. -/
def suggestionsMissing : Option ImprovementSuggestions → Bool
  | none => true
  | some m => strFalsy m.persona1 || strFalsy m.persona2

/-- `BattleJudgeService.validateJudgeResult` (part_002 lines 425-456):
check the winner token, strictly validate both persona scores
(propagating their errors, as thrown exceptions do), check that the
declared winner's total is not lower than the other's, then enforce the
narrative fields. -/
def validateJudgeResult (result : BattleJudgeResponse) :
    Except JudgeError BattleJudgeResponse :=
  if ¬ (result.winner = "persona1" ∨ result.winner = "persona2") then
    Except.error JudgeError.invalidWinner
  else match validatePersonaScore result.scores_persona1 with
    | Except.error e => Except.error e
    | Except.ok _ =>
      match validatePersonaScore result.scores_persona2 with
      | Except.error e => Except.error e
      | Except.ok _ =>
        if result.winner = "persona1" ∧
            result.scores_persona1.total < result.scores_persona2.total then
          Except.error JudgeError.winnerMismatch
        else if result.winner = "persona2" ∧
            result.scores_persona2.total < result.scores_persona1.total then
          Except.error JudgeError.winnerMismatch
        else if reasoningBad result.reasoning then
          Except.error JudgeError.reasoningTooShort
        else if highlightsMissing result.highlights then
          Except.error JudgeError.missingHighlights
        else if suggestionsMissing result.improvement_suggestions then
          Except.error JudgeError.missingImprovementSuggestions
        else Except.ok result

/-- Characterization of successful judge-result validation: it returns
the input unchanged and every one of the checks passes. -/
theorem validateJudgeResult_ok_iff (r r' : BattleJudgeResponse) :
    validateJudgeResult r = Except.ok r' ↔
      r' = r ∧
      (r.winner = "persona1" ∨ r.winner = "persona2") ∧
      validatePersonaScore r.scores_persona1 = Except.ok () ∧
      validatePersonaScore r.scores_persona2 = Except.ok () ∧
      ¬(r.winner = "persona1" ∧
        r.scores_persona1.total < r.scores_persona2.total) ∧
      ¬(r.winner = "persona2" ∧
        r.scores_persona2.total < r.scores_persona1.total) ∧
      reasoningBad r.reasoning = false ∧
      highlightsMissing r.highlights = false ∧
      suggestionsMissing r.improvement_suggestions = false := by
  constructor
  · intro h
    unfold validateJudgeResult at h
    rcases hp1 : validatePersonaScore r.scores_persona1 with e1 | u1
    · simp only [hp1] at h
      split_ifs at h
    · cases u1
      rcases hp2 : validatePersonaScore r.scores_persona2 with e2 | u2
      · simp only [hp1, hp2] at h
        split_ifs at h
      · cases u2
        simp only [hp1, hp2] at h
        split_ifs at h with hw h1 h2 h3 h4 h5
        rw [Except.ok.injEq] at h
        exact ⟨h.symm, hw, rfl, rfl, h1, h2,
          by simpa using h3, by simpa using h4, by simpa using h5⟩
  · rintro ⟨he, hw, hp1, hp2, h1, h2, h3, h4, h5⟩
    subst he
    unfold validateJudgeResult
    simp only [hp1, hp2]
    rw [if_neg (not_not_intro hw), if_neg h1, if_neg h2,
      if_neg (by simp [h3]), if_neg (by simp [h4]), if_neg (by simp [h5])]

/-- Persona score (25, 20, 10, 20) with total 75: consistent, in range,
low persuasiveness. -/
def tieP1 : PersonaScore :=
  { logical_coherence := 25, creativity := 20, persuasiveness := 10,
    topic_relevance := 20, total := 75 }

/-- Persona score (23, 15, 20, 15) with total 73: consistent, in range,
high persuasiveness. -/
def tieP2 : PersonaScore :=
  { logical_coherence := 23, creativity := 15, persuasiveness := 20,
    topic_relevance := 15, total := 73 }

/-- A fully-populated judge result in which persona1 wins by 2 points
(within the 3-point band) despite strictly lower persuasiveness. -/
def tieBreakResult : BattleJudgeResponse :=
  { winner := "persona1", scores_persona1 := tieP1, scores_persona2 := tieP2,
    reasoning := some "persona1 argued with more structure.",
    highlights := some { persona1_best := some "clear framing",
                         persona2_best := some "strong emotional appeal" },
    improvement_suggestions := some { persona1 := some "add examples",
                                      persona2 := some "tighten logic" } }

/-- Persona score (20, 15, 10, 15) with total 60: consistent, in range. -/
def lowTotalScore : PersonaScore :=
  { logical_coherence := 20, creativity := 15, persuasiveness := 10,
    topic_relevance := 15, total := 60 }

/-- A judge result that declares persona1 the winner although persona1's
total 60 is strictly below persona2's total 73. -/
def mismatchResult : BattleJudgeResponse :=
  { winner := "persona1", scores_persona1 := lowTotalScore,
    scores_persona2 := tieP2, reasoning := none, highlights := none,
    improvement_suggestions := none }

/-- C5: a validated judge result always has the declared winner's total ≥
the other participant's; a result whose persona scores validate but whose
declared winner has the strictly lower total is rejected with the
winner-mismatch error (in either direction); and within the 3-point band
no persuasiveness tie-break is re-checked beyond the ≥-total condition:
a fully-populated result with winner persona1, totals 75 vs 73, and
strictly lower persona1 persuasiveness is accepted unchanged. -/
theorem winner_validation_spec :
    (∀ r r' : BattleJudgeResponse, validateJudgeResult r = Except.ok r' →
      (r.winner = "persona1" →
        r.scores_persona2.total ≤ r.scores_persona1.total) ∧
      (r.winner = "persona2" →
        r.scores_persona1.total ≤ r.scores_persona2.total)) ∧
    (∀ r : BattleJudgeResponse,
      validatePersonaScore r.scores_persona1 = Except.ok () →
      validatePersonaScore r.scores_persona2 = Except.ok () →
      (r.winner = "persona1" ∧
          r.scores_persona1.total < r.scores_persona2.total ∨
        r.winner = "persona2" ∧
          r.scores_persona2.total < r.scores_persona1.total) →
      validateJudgeResult r = Except.error JudgeError.winnerMismatch) ∧
    validateJudgeResult tieBreakResult = Except.ok tieBreakResult ∧
    tieBreakResult.winner = "persona1" ∧
    tieBreakResult.scores_persona1.total
        - tieBreakResult.scores_persona2.total ≤ 3 ∧
    tieBreakResult.scores_persona1.persuasiveness <
      tieBreakResult.scores_persona2.persuasiveness := by
  refine ⟨?_, ?_, ?_, rfl, ?_, ?_⟩
  · intro r r' h
    rw [validateJudgeResult_ok_iff] at h
    obtain ⟨-, -, -, -, h1, h2, -, -, -⟩ := h
    constructor
    · intro hw
      exact le_of_not_lt fun hlt => h1 ⟨hw, hlt⟩
    · intro hw
      exact le_of_not_lt fun hlt => h2 ⟨hw, hlt⟩
  · intro r hp1 hp2 hd
    unfold validateJudgeResult
    simp only [hp1, hp2]
    rcases hd with ⟨hw, hlt⟩ | ⟨hw, hlt⟩
    · rw [if_neg (not_not_intro (Or.inl hw)), if_pos ⟨hw, hlt⟩]
    · rw [if_neg (not_not_intro (Or.inr hw)),
        if_neg (by rintro ⟨hww, -⟩; rw [hw] at hww; exact absurd hww (by decide)),
        if_pos ⟨hw, hlt⟩]
  · rw [validateJudgeResult_ok_iff]
    refine ⟨rfl, Or.inl rfl, ?_, ?_, ?_, ?_, by decide, by decide, by decide⟩
    · norm_num [tieBreakResult, tieP1, validatePersonaScore,
        PersonaScore.subSum]
    · norm_num [tieBreakResult, tieP2, validatePersonaScore,
        PersonaScore.subSum]
    · rintro ⟨-, hlt⟩
      norm_num [tieBreakResult, tieP1, tieP2] at hlt
    · rintro ⟨hww, -⟩
      exact absurd hww (by decide)
  · norm_num [tieBreakResult, tieP1, tieP2]
  · norm_num [tieBreakResult, tieP1, tieP2]

/-- C5 witness: the winner-mismatch clause applied to the concrete result
that declares persona1 the winner with totals 60 vs 73. -/
theorem winner_validation_spec_witness :
    validateJudgeResult mismatchResult
      = Except.error JudgeError.winnerMismatch :=
  winner_validation_spec.2.1 mismatchResult
    (by norm_num [mismatchResult, lowTotalScore, validatePersonaScore,
      PersonaScore.subSum])
    (by norm_num [mismatchResult, tieP2, validatePersonaScore,
      PersonaScore.subSum])
    (Or.inl ⟨rfl, by norm_num [mismatchResult, lowTotalScore, tieP2]⟩)

/-- A judge result identical to `tieBreakResult` except that
`highlights.persona2_best` is absent. -/
def missingHighlightResult : BattleJudgeResponse :=
  { winner := "persona1", scores_persona1 := tieP1, scores_persona2 := tieP2,
    reasoning := some "persona1 argued with more structure.",
    highlights := some { persona1_best := some "clear framing",
                         persona2_best := none },
    improvement_suggestions := some { persona1 := some "add examples",
                                      persona2 := some "tighten logic" } }

/-- C8: judge-result validation never succeeds when the reasoning is
absent or shorter than 20 characters, or when any of the four
highlight/suggestion fields is absent or empty; in particular an
otherwise valid result missing `highlights.persona2_best` is rejected
with the missing-highlights error. -/
theorem required_fields_spec :
    (∀ r r' : BattleJudgeResponse,
      (r.reasoning = none ∨
        (∃ s, r.reasoning = some s ∧ s.length < 20) ∨
        r.highlights = none ∨
        (∃ hl : Highlights, r.highlights = some hl ∧
          (hl.persona1_best = none ∨ hl.persona1_best = some "" ∨
            hl.persona2_best = none ∨ hl.persona2_best = some "")) ∨
        r.improvement_suggestions = none ∨
        (∃ ms : ImprovementSuggestions, r.improvement_suggestions = some ms ∧
          (ms.persona1 = none ∨ ms.persona1 = some "" ∨
            ms.persona2 = none ∨ ms.persona2 = some ""))) →
      validateJudgeResult r ≠ Except.ok r') ∧
    validateJudgeResult missingHighlightResult
      = Except.error JudgeError.missingHighlights := by
  constructor
  · intro r r' hbad hok
    rw [validateJudgeResult_ok_iff] at hok
    obtain ⟨-, -, -, -, -, -, hr, hh, hs⟩ := hok
    rcases hbad with hc | ⟨s, hc, hlen⟩ | hc | ⟨hl, hc, hc4⟩ | hc | ⟨ms, hc, hc4⟩
    · rw [hc] at hr
      exact absurd hr (by decide)
    · rw [hc] at hr
      simp only [reasoningBad, decide_eq_false_iff_not] at hr
      exact hr hlen
    · rw [hc] at hh
      exact absurd hh (by decide)
    · rw [hc] at hh
      simp only [highlightsMissing, Bool.or_eq_false_iff] at hh
      rcases hc4 with h | h | h | h <;> rw [h] at hh <;>
        first
          | exact absurd hh.1 (by decide)
          | exact absurd hh.2 (by decide)
    · rw [hc] at hs
      exact absurd hs (by decide)
    · rw [hc] at hs
      simp only [suggestionsMissing, Bool.or_eq_false_iff] at hs
      rcases hc4 with h | h | h | h <;> rw [h] at hs <;>
        first
          | exact absurd hs.1 (by decide)
          | exact absurd hs.2 (by decide)
  · have hp1 : validatePersonaScore missingHighlightResult.scores_persona1
        = Except.ok () := by
      norm_num [missingHighlightResult, tieP1, validatePersonaScore,
        PersonaScore.subSum]
    have hp2 : validatePersonaScore missingHighlightResult.scores_persona2
        = Except.ok () := by
      norm_num [missingHighlightResult, tieP2, validatePersonaScore,
        PersonaScore.subSum]
    have hwin : missingHighlightResult.winner = "persona1" := rfl
    have hno1 : ¬(missingHighlightResult.winner = "persona1" ∧
        missingHighlightResult.scores_persona1.total <
          missingHighlightResult.scores_persona2.total) := by
      rintro ⟨-, hlt⟩
      norm_num [missingHighlightResult, tieP1, tieP2] at hlt
    have hno2 : ¬(missingHighlightResult.winner = "persona2" ∧
        missingHighlightResult.scores_persona2.total <
          missingHighlightResult.scores_persona1.total) := by
      rintro ⟨hww, -⟩
      exact absurd hww (by decide)
    unfold validateJudgeResult
    simp only [hp1, hp2]
    rw [if_neg (not_not_intro (Or.inl hwin)), if_neg hno1, if_neg hno2,
      if_neg (by decide), if_pos (by decide)]

/-- C8 witness: the rejection clause applied to a concrete result whose
reasoning is absent. -/
theorem required_fields_spec_witness :
    validateJudgeResult mismatchResult ≠ Except.ok mismatchResult :=
  required_fields_spec.1 mismatchResult mismatchResult (Or.inl rfl)

/-- One left-to-right scan of the fence-stripping replacement
`response.text.replace(/```json\n?|\n?```/g, '')` of `evaluatePrompt`:
at each position the regex alternatives are tried in order with greedy
optional newlines, and a match is deleted.  Fuel is the input length,
enough since every step consumes at least one character. -/
def stripFencesAux : ℕ → List Char → List Char
  | 0, s => s
  | _ + 1, [] => []
  | fuel + 1, c :: rest =>
    if List.isPrefixOf "```json\n".toList (c :: rest) then
      stripFencesAux fuel (List.drop 8 (c :: rest))
    else if List.isPrefixOf "```json".toList (c :: rest) then
      stripFencesAux fuel (List.drop 7 (c :: rest))
    else if List.isPrefixOf "\n```".toList (c :: rest) then
      stripFencesAux fuel (List.drop 4 (c :: rest))
    else if List.isPrefixOf "```".toList (c :: rest) then
      stripFencesAux fuel (List.drop 3 (c :: rest))
    else c :: stripFencesAux fuel rest

/-- Whitespace trimming from both ends, the `.trim()` of the cleaning
step. -/
def trimChars (s : List Char) : List Char :=
  (((s.dropWhile Char.isWhitespace).reverse).dropWhile Char.isWhitespace).reverse

/-- The response cleaning of `evaluatePrompt` (line 101): strip markdown
code fences, then trim surrounding whitespace. -/
def cleanResponse (text : String) : String :=
  String.mk (trimChars (stripFencesAux (text.toList.length + 1) text.toList))

/-- A flat JSON value: integer numeral or string — the only value shapes
occurring in the score object the evaluation pipeline expects. -/
inductive JsonVal where
  | num (n : ℤ)
  | str (s : String)
deriving DecidableEq, Repr

/-- Drop leading JSON whitespace. -/
def skipWs : List Char → List Char
  | [] => []
  | c :: rest =>
    if c = ' ' ∨ c = '\n' ∨ c = '\t' ∨ c = '\r' then skipWs rest
    else c :: rest

/-- Split off a maximal run of leading decimal digits. -/
def takeDigits : List Char → List Char × List Char
  | [] => ([], [])
  | c :: rest =>
    if c.isDigit then
      let p := takeDigits rest
      (c :: p.1, p.2)
    else ([], c :: rest)

/-- Numeric value of a decimal digit run. -/
def digitsToNat (ds : List Char) : ℕ :=
  ds.foldl (fun n c => 10 * n + (c.toNat - 48)) 0

/-- Parse a JSON integer numeral (optional minus sign, then a digit run).
`JSON.parse` also accepts fractions and exponents; the score object the
pipeline expects carries only integers, and this model is restricted to
them. -/
def parseNumber (s : List Char) : Option (ℤ × List Char) :=
  match s with
  | '-' :: rest =>
    let p := takeDigits rest
    if p.1.isEmpty then none else some (-(digitsToNat p.1 : ℤ), p.2)
  | _ =>
    let p := takeDigits s
    if p.1.isEmpty then none else some ((digitsToNat p.1 : ℤ), p.2)

/-- Collect the characters of a JSON string literal up to the closing
quote.  Escape sequences are not modelled (the expected response text
contains none): a backslash fails the parse. -/
def takeStringChars : List Char → Option (List Char × List Char)
  | [] => none
  | c :: rest =>
    if c = '"' then some ([], rest)
    else if c = '\\' then none
    else (takeStringChars rest).map (fun p => (c :: p.1, p.2))

/-- Parse a JSON string literal. -/
def parseStringLit (s : List Char) : Option (String × List Char) :=
  match s with
  | '"' :: rest => (takeStringChars rest).map (fun p => (String.mk p.1, p.2))
  | _ => none

/-- Parse a flat JSON value (string or integer numeral). -/
def parseValue (s : List Char) : Option (JsonVal × List Char) :=
  match s with
  | '"' :: _ => (parseStringLit s).map (fun p => (JsonVal.str p.1, p.2))
  | _ => (parseNumber s).map (fun p => (JsonVal.num p.1, p.2))

/-- Parse the members of a flat JSON object after the opening brace, up
to and including the closing brace. -/
def parseMembers : ℕ → List Char → Option (List (String × JsonVal) × List Char)
  | 0, _ => none
  | fuel + 1, s => do
    let (key, s1) ← parseStringLit (skipWs s)
    match skipWs s1 with
    | ':' :: s2 => do
      let (v, s3) ← parseValue (skipWs s2)
      match skipWs s3 with
      | ',' :: s4 => do
        let (rest, s5) ← parseMembers fuel s4
        some ((key, v) :: rest, s5)
      | '\x7d' :: s4 => some ([(key, v)], s4)
      | _ => none
    | _ => none

/-- Parse a flat JSON object — the score-object shape `JSON.parse`
receives from the evaluation pipeline. -/
def parseFlatObject (s : List Char) :
    Option (List (String × JsonVal) × List Char) :=
  match skipWs s with
  | '\x7b' :: rest =>
    match skipWs rest with
    | '\x7d' :: r => some ([], r)
    | r => parseMembers (r.length + 1) r
  | _ => none

/-- Read a numeric field of the parsed object; an absent key or a string
value fails, mirroring the `typeof ... !== 'number'` check of
`validateScore` on the duck-typed parse result. -/
def numField (fields : List (String × JsonVal)) (key : String) : Option ℚ :=
  match fields.lookup key with
  | some (JsonVal.num n) => some (n : ℚ)
  | _ => none

/-- Read a string field of the parsed object. -/
def strField (fields : List (String × JsonVal)) (key : String) :
    Option String :=
  match fields.lookup key with
  | some (JsonVal.str s) => some s
  | _ => none

/-- `JSON.parse` of the cleaned response text followed by the field reads
of `evaluatePrompt`, producing a `PromptScore` record.  Restricted model
of `JSON.parse`: flat objects, integer numerals, escape-free strings,
first occurrence of a duplicate key; the `reasoning` field is required
here although the source only type-checks the numeric fields.  Every
input the claims evaluate lies inside this fragment. -/
def parsePromptScore (text : String) : Option PromptScore := do
  let (fields, rest) ← parseFlatObject text.toList
  if (skipWs rest).isEmpty then
    let specificity ← numField fields "specificity"
    let creativity ← numField fields "creativity"
    let coherence ← numField fields "coherence"
    let complexity ← numField fields "complexity"
    let total ← numField fields "total"
    let reasoning ← strField fields "reasoning"
    some { specificity := specificity, creativity := creativity,
           coherence := coherence, complexity := complexity,
           total := total, reasoning := reasoning }
  else none

/-- The failure of `evaluatePrompt`: `Failed to parse evaluation
response`, carrying the underlying cause (a JSON-parse or shape failure,
or a validation error). -/
inductive EvalPipelineError where
  | parseFailure (cause : Option EvalError)
deriving DecidableEq, Repr

/-- `PromptEvaluationResponse` from `types.ts`. -/
structure PromptEvaluationResponse where
  score : PromptScore
  tierProbabilities : TierProbability
  qualityLevel : QualityLevel
deriving DecidableEq, Repr

/-- `PromptEvaluationService.evaluatePrompt`
(`prompt-evaluation.service.ts` lines 84-121) from the generator's
response text onward: clean the raw text, parse it, validate leniently,
classify the (possibly corrected) total, and look up the tier
distribution. -/
def evaluatePrompt (responseText : String) :
    Except EvalPipelineError PromptEvaluationResponse :=
  match parsePromptScore (cleanResponse responseText) with
  | none => Except.error (EvalPipelineError.parseFailure none)
  | some raw =>
    match validateScore raw with
    | Except.error e => Except.error (EvalPipelineError.parseFailure (some e))
    | Except.ok score =>
      let qualityLevel := getQualityLevel score.total
      let tierProbabilities := TIER_PROBABILITIES qualityLevel
      Except.ok { score := score, tierProbabilities := tierProbabilities,
                  qualityLevel := qualityLevel }

/-- The mocked generator output of the end-to-end property: the JSON
score object with sub-scores (20, 18, 22, 15), total 74, and the sample
reasoning sentence. -/
def e2eResponseText : String :=
  "\x7b\"specificity\":20,\"creativity\":18,\"coherence\":22,\"complexity\":15,\"total\":74,\"reasoning\":\"Well-structured and specific.\"\x7d"

/-- The `PromptScore` record denoted by `e2eResponseText`. -/
def e2eScore : PromptScore :=
  { specificity := 20, creativity := 18, coherence := 22, complexity := 15,
    total := 74, reasoning := "Well-structured and specific." }

set_option maxRecDepth 40000 in
/-- The end-to-end response text parses to exactly `e2eScore`. -/
theorem e2e_parse : parsePromptScore e2eResponseText = some e2eScore := by
  have h0 : parsePromptScore e2eResponseText =
      some { specificity := ((20 : ℤ) : ℚ), creativity := ((18 : ℤ) : ℚ),
             coherence := ((22 : ℤ) : ℚ), complexity := ((15 : ℤ) : ℚ),
             total := ((74 : ℤ) : ℚ),
             reasoning := "Well-structured and specific." } := rfl
  rw [h0]
  norm_num [e2eScore]

/-- C6: whenever the generator's raw text cleans (fence-stripping and
trimming) to exactly the expected JSON score object with sub-scores
(20, 18, 22, 15) and total 74, the evaluation pipeline succeeds and
returns quality level high together with the high tier-probability row
(common 25, rare 40, epic 28, legendary 7). -/
theorem evaluatePrompt_e2e (raw : String)
    (h : cleanResponse raw = e2eResponseText) :
    ∃ resp : PromptEvaluationResponse,
      evaluatePrompt raw = Except.ok resp ∧
      resp.qualityLevel = QualityLevel.high ∧
      resp.tierProbabilities =
        { common := 25, rare := 40, epic := 28, legendary := 7 } := by
  have hval : validateScore e2eScore = Except.ok e2eScore := by
    norm_num [validateScore, PromptScore.subSum, e2eScore]
  have hq : getQualityLevel e2eScore.total = QualityLevel.high := by
    norm_num [getQualityLevel, e2eScore]
  refine ⟨{ score := e2eScore,
            tierProbabilities := TIER_PROBABILITIES (getQualityLevel e2eScore.total),
            qualityLevel := getQualityLevel e2eScore.total }, ?_, ?_, ?_⟩
  · unfold evaluatePrompt
    rw [h]
    simp only [e2e_parse, hval]
  · simpa using hq
  · simp only [hq]
    rfl

set_option maxRecDepth 40000 in
/-- C6 witness: the pipeline applied to the raw text itself (which is
already fence-free and trimmed). -/
theorem evaluatePrompt_e2e_witness :
    ∃ resp : PromptEvaluationResponse,
      evaluatePrompt e2eResponseText = Except.ok resp ∧
      resp.qualityLevel = QualityLevel.high ∧
      resp.tierProbabilities =
        { common := 25, rare := 40, epic := 28, legendary := 7 } :=
  evaluatePrompt_e2e e2eResponseText (by decide)

/-- Concrete prompt score with sub-scores (25, 25, 25, 25), all in range,
and declared total 101, outside [0,100] although the recomputed sum 100
is inside. -/
def totalOutScore : PromptScore :=
  { specificity := 25, creativity := 25, coherence := 25, complexity := 25,
    total := 101, reasoning := "x" }

/-- Response text denoting `totalOutScore`. -/
def totalOutText : String :=
  "\x7b\"specificity\":25,\"creativity\":25,\"coherence\":25,\"complexity\":25,\"total\":101,\"reasoning\":\"x\"\x7d"

set_option maxRecDepth 40000 in
/-- `totalOutText` cleans to itself and parses to exactly
`totalOutScore`. -/
theorem totalOut_parse :
    parsePromptScore (cleanResponse totalOutText) = some totalOutScore := by
  have hclean : cleanResponse totalOutText = totalOutText := by decide
  have h0 : parsePromptScore totalOutText =
      some { specificity := ((25 : ℤ) : ℚ), creativity := ((25 : ℤ) : ℚ),
             coherence := ((25 : ℤ) : ℚ), complexity := ((25 : ℤ) : ℚ),
             total := ((101 : ℤ) : ℚ), reasoning := "x" } := rfl
  rw [hclean, h0]
  norm_num [totalOutScore]

/-- C10: in lenient validation the range check on the declared total runs
before the consistency correction: a score whose four sub-scores are in
[0,25] but whose declared total is outside [0,100] fails validation with
the total-out-of-range error, and the evaluation pipeline raises a parse
failure with that cause instead of silently correcting the total. -/
theorem totalRange_before_correction (s : PromptScore)
    (hsub : s.subScoresInRange) (ht : s.total < 0 ∨ s.total > 100) :
    validateScore s = Except.error EvalError.totalOutOfRange ∧
    (∀ raw : String, parsePromptScore (cleanResponse raw) = some s →
      evaluatePrompt raw =
        Except.error (EvalPipelineError.parseFailure
          (some EvalError.totalOutOfRange))) := by
  obtain ⟨a1, a2, b1, b2, c1, c2, d1, d2⟩ := hsub
  have hv : validateScore s = Except.error EvalError.totalOutOfRange := by
    unfold validateScore
    rw [if_neg (by push_neg; exact ⟨a1, a2, b1, b2, c1, c2, d1, d2⟩),
      if_pos ht]
  refine ⟨hv, ?_⟩
  intro raw hp
  unfold evaluatePrompt
  simp only [hp, hv]

/-- C10 witness: the theorem applied to the concrete score with
sub-scores (25, 25, 25, 25) and declared total 101, and to its response
text. -/
theorem totalRange_before_correction_witness :
    validateScore totalOutScore = Except.error EvalError.totalOutOfRange ∧
    evaluatePrompt totalOutText =
      Except.error (EvalPipelineError.parseFailure
        (some EvalError.totalOutOfRange)) := by
  have h := totalRange_before_correction totalOutScore
    (by norm_num [PromptScore.subScoresInRange, totalOutScore])
    (by norm_num [totalOutScore])
  exact ⟨h.1, h.2 totalOutText totalOut_parse⟩
